import Mathlib

/-!
Verification development for the Smart Ambulance clinical dashboard
(`app.py`).  The definitions below are a shallow embedding of the core
clinical inference engine: the vitals normalizer (per-field coercion with
`0`-defaults), the rule-based triage classifier (`get_semantic_info`,
lines 628-706), the differential-diagnosis scorer (`get_clinical_insights`,
lines 708-757), the protocol resolver (lines 901-913 together with the
`COMPLAINT_TO_PROTOCOL` table), and the encryption helpers
(`encrypt_data` / `decrypt_data`, lines 408-426).

Numbers are modelled as `ℚ` (pandas floats on the vitals follow exact
numeral comparisons in every rule involved).  A raw field that is missing
or unparseable (`pd.to_numeric(..., errors="coerce")` yielding `NaN`) is
modelled as `none : Option ℚ`, and the fill step `val if pd.notna(val)
else 0` becomes `Option.getD · 0`.  Python string containment `k in s` is
modelled by `containsSub`, Python `str.title()` by `pyTitle` (accurate for
the ASCII keyword vocabulary of the knowledge base), and Python's stable
`sorted(..., reverse=True)` by the stable insertion sort `sortByKeyDesc`.
Python's `set` iteration order is implementation defined; `List.dedup`
stands in for `list(set(...))`, and no theorem below depends on the order
it picks.  The external ML classifier is a black box
`predict : TreatmentInput → Except InferenceError String`, and the Fernet
cipher a black box pair of functions subject to a round-trip hypothesis.
-/

/-- Bool test that `needle` occurs at the head of `hay` (character lists). -/
def charListStartsWith : List Char → List Char → Bool
  | [], _ => true
  | _ :: _, [] => false
  | a :: as, b :: bs => a == b && charListStartsWith as bs

/-- Bool test that `needle` occurs somewhere inside `hay` (character lists). -/
def charListHasSub (needle : List Char) : List Char → Bool
  | [] => charListStartsWith needle []
  | b :: bs => charListStartsWith needle (b :: bs) || charListHasSub needle bs

/-- Python's substring containment `needle in hay`. -/
def containsSub (hay needle : String) : Bool :=
  charListHasSub needle.data hay.data

/-- Helper for `pyTitle`: walks the characters tracking whether the previous
character was alphabetic (Python: cased). -/
def pyTitleGo : Bool → List Char → List Char
  | _, [] => []
  | prevCased, c :: cs =>
    if c.isAlpha then
      (if prevCased then c.toLower else c.toUpper) :: pyTitleGo true cs
    else
      c :: pyTitleGo false cs

/-- Python's `str.title()` for the ASCII keyword vocabulary: the first
alphabetic character of every alphabetic run is upper-cased, the rest of the
run lower-cased. -/
def pyTitle (s : String) : String :=
  String.mk (pyTitleGo false s.data)

/-- Python's `str.lower()` for the ASCII vocabulary involved, written over
the character list so that concrete evaluations reduce in the kernel
(`String.toLower`'s `mapAux` does not). -/
def strToLower (s : String) : String := String.mk (s.data.map Char.toLower)

/-- Stable descending insertion by a numeric key: `x` is placed before the
first element whose key is `≤ key x`, so earlier elements win ties, exactly
as in Python's stable `sorted(..., reverse=True)`. -/
def insertByKeyDesc (key : α → Nat) (x : α) : List α → List α
  | [] => [x]
  | y :: ys => if key y ≤ key x then x :: y :: ys else y :: insertByKeyDesc key x ys

/-- Stable descending sort by a numeric key (insertion sort), modelling
Python's stable `sorted(..., key=key, reverse=True)`. -/
def sortByKeyDesc (key : α → Nat) : List α → List α
  | [] => []
  | x :: xs => insertByKeyDesc key x (sortByKeyDesc key xs)

/-- One abnormal-vitals observation emitted by the triage classifier:
severity (`0` normal / `1` warning / `2` critical), long message, short
label (the dicts appended to `audit_findings`, app.py lines 668-684). -/
structure Finding where
  severity : Nat
  message : String
  short : String
deriving DecidableEq, Repr

/-- The ordered per-vital threshold checks of `get_semantic_info`
(app.py lines 667-684), producing findings in evaluation order: heart rate
low, heart rate high, SpO₂, blood pressure high, systolic low, respiratory
rate low, respiratory rate high, temperature high, temperature low.  Each
two-level block is `if critical ... elif warning ...`, so at most one
finding per block.  The `38.5` threshold is written `mkRat 77 2` so that
concrete evaluations reduce in the kernel. -/
def auditFindings (hr spo2 sbp dbp rr temp : ℚ) : List Finding :=
  (if hr < 40 then [⟨2, "Critical: Severe Bradycardia (HR < 40)", "Critically Low HR"⟩]
   else if hr < 50 then [⟨1, "Warning: Bradycardia (HR < 50)", "Low HR"⟩] else [])
  ++ (if hr > 150 then [⟨2, "Critical: Extreme Tachycardia (HR > 150)", "Critically High HR"⟩]
      else if hr > 110 then [⟨1, "Warning: Tachycardia (HR > 110)", "High HR"⟩] else [])
  ++ (if spo2 < 85 then [⟨2, "Critical: Severe Hypoxia (SpO₂ < 85%)", "Critically Low SpO₂"⟩]
      else if spo2 < 92 then [⟨1, "Warning: Hypoxia (SpO₂ < 92%)", "Low SpO₂"⟩] else [])
  ++ (if sbp > 180 ∨ dbp > 120 then [⟨2, "Critical: Hypertensive Crisis (BP > 180/120)", "Hypertensive Crisis"⟩]
      else if sbp > 160 ∨ dbp > 100 then [⟨1, "Warning: Severe Hypertension", "High BP"⟩] else [])
  ++ (if sbp < 90 then [⟨2, "Critical: Severe Hypotension (SBP < 90)", "Critically Low BP"⟩]
      else if sbp < 100 then [⟨1, "Warning: Hypotension (SBP < 100)", "Low BP"⟩] else [])
  ++ (if rr < 8 then [⟨2, "Critical: Severe Bradypnea (RR < 8)", "Low Resp. Rate"⟩]
      else if rr < 12 then [⟨1, "Warning: Bradypnea (RR < 12)", "Low Resp. Rate"⟩] else [])
  ++ (if rr > 30 then [⟨2, "Critical: Severe Tachypnea (RR > 30)", "High Resp. Rate"⟩]
      else if rr > 22 then [⟨1, "Warning: Tachypnea (RR > 22)", "High Resp. Rate"⟩] else [])
  ++ (if temp > 40 then [⟨2, "Critical: Hyperpyrexia (Temp > 40°C)", "Critically High Temp"⟩]
      else if temp > (mkRat 77 2) then [⟨1, "Warning: High Fever (Temp > 38.5°C)", "High Temp"⟩] else [])
  ++ (if temp < 35 then [⟨2, "Critical: Hypothermia (Temp < 35°C)", "Low Temp"⟩] else [])

/-- One normalized patient row as consumed by the inference functions.
The seven structurally required numeric columns are present (rows failing
the column check of app.py lines 634-637 take the early `default_return`
path and never reach the logic modelled here); each numeric field holds the
result of `pd.to_numeric(..., errors="coerce")`, with `none` standing for
`NaN` (missing or unparseable).  `gcs` also covers the entirely-missing
column (`row.get('gcs', Series([nan]))`).  Text fields default to the empty
string when absent, as in the source's `row.get(...)` fallbacks. -/
structure PatientRow where
  age : Option ℚ
  heart_rate_bpm : Option ℚ
  spo2_percent : Option ℚ
  systolic_bp_mmHg : Option ℚ
  diastolic_bp_mmHg : Option ℚ
  respiratory_rate_bpm : Option ℚ
  temperature_c : Option ℚ
  gcs : Option ℚ
  consciousness : String
  chief_complaint : String
deriving DecidableEq, Repr

/-- Feature vector handed to the external treatment classifier
(`model_input_data`, app.py lines 656-663): `age` is *not* NaN-filled in
the source, the six other numerics are the 0-filled values. -/
structure TreatmentInput where
  age : Option ℚ
  heart_rate_bpm : ℚ
  systolic_bp_mmHg : ℚ
  diastolic_bp_mmHg : ℚ
  respiratory_rate_bpm : ℚ
  spo2_percent : ℚ
  temperature_c : ℚ
  chief_complaint : String
deriving DecidableEq, Repr

/-- Failure of the external classifier's `predict` call (e.g. a
feature-schema mismatch raising inside scikit-learn). -/
inductive InferenceError where
  | predictFailure (msg : String)
deriving DecidableEq, Repr

/-- The feature vector built by `get_semantic_info` before prediction
(app.py lines 656-663). -/
def modelInput (row : PatientRow) : TreatmentInput :=
  { age := row.age
    heart_rate_bpm := row.heart_rate_bpm.getD 0
    systolic_bp_mmHg := row.systolic_bp_mmHg.getD 0
    diastolic_bp_mmHg := row.diastolic_bp_mmHg.getD 0
    respiratory_rate_bpm := row.respiratory_rate_bpm.getD 0
    spo2_percent := row.spo2_percent.getD 0
    temperature_c := row.temperature_c.getD 0
    chief_complaint := row.chief_complaint }

/-- The triage findings of a row: the threshold checks applied to the
0-filled vitals (app.py line 653 and lines 667-684). -/
def auditFindingsRow (row : PatientRow) : List Finding :=
  auditFindings (row.heart_rate_bpm.getD 0) (row.spo2_percent.getD 0)
    (row.systolic_bp_mmHg.getD 0) (row.diastolic_bp_mmHg.getD 0)
    (row.respiratory_rate_bpm.getD 0) (row.temperature_c.getD 0)

/-- `status_map = {0: "Normal", 1: "Warning", 2: "Critical"}` (app.py
line 694; the key is always one of 0, 1, 2). -/
def status_map (n : Nat) : String :=
  if n == 0 then "Normal" else if n == 1 then "Warning" else "Critical"

/-- The status-colour lookup of app.py line 696. -/
def color_map (s : String) : String :=
  if s = "Critical" then "#D9534F" else if s = "Warning" then "#F0AD4E" else "#5CB85C"

/-- Aggregate triage result of one row (app.py lines 686-696). -/
structure TriageInfo where
  max_severity : Nat
  status : String
  alert : String
  color : String
  short_alerts : List String
deriving DecidableEq, Repr

/-- Aggregation of the findings (app.py lines 686-696): empty list gives
severity 0 with the stable-vitals message; otherwise the maximum severity,
and the messages/short labels of the findings sorted stably by descending
severity and joined. -/
def triageOf (row : PatientRow) : TriageInfo :=
  let fs := auditFindingsRow row
  if fs.isEmpty then
    { max_severity := 0
      status := status_map 0
      alert := "All vitals stable."
      color := color_map (status_map 0)
      short_alerts := [] }
  else
    let ms := (fs.map (fun f => f.severity)).foldl max 0
    let sorted := sortByKeyDesc (fun f => f.severity) fs
    { max_severity := ms
      status := status_map ms
      alert := " | ".intercalate (sorted.map (fun f => f.message))
      color := color_map (status_map ms)
      short_alerts := sorted.map (fun f => f.short) }

/-- Consciousness derivation of app.py lines 698-699: `Unconscious` when the
lower-cased consciousness text contains `"unresponsive"` or the 0-filled GCS
is ≤ 8 (the `pd.notna` guard is vacuous after the fill), else `Conscious`;
paired with the display colour. -/
def consciousnessState (row : PatientRow) : String × String :=
  if containsSub (strToLower row.consciousness) "unresponsive" || decide (row.gcs.getD 0 ≤ 8) then
    ("Unconscious", "#D9534F")
  else
    ("Conscious", "#5CB85C")

/-- The composite per-row semantic result of `get_semantic_info`
(the returned tuple of app.py line 706). -/
structure SemanticInfo where
  status : String
  alert : String
  color : String
  ai_treatment : String
  priority : Nat
  consciousness_state : String
  consciousness_color : String
  hr : ℚ
  spo2 : ℚ
  temp : ℚ
  hr_delta : ℚ
  spo2_delta : ℚ
  temp_delta : ℚ
  short_alerts : List String
deriving DecidableEq, Repr

/-- Shallow embedding of `get_semantic_info` (app.py lines 628-706) for rows
that pass the required-column check.  The classifier is called *before* the
audit findings are computed (line 665 precedes lines 667 onward) and its
call is not guarded by any `try`, so a raising `predict` propagates — this
is modelled by sequencing through `Except`: a classifier error makes the
whole call return that error. -/
def get_semantic_info (row : PatientRow)
    (predict : TreatmentInput → Except InferenceError String) :
    Except InferenceError SemanticInfo :=
  (predict (modelInput row)).map (fun ai_treatment =>
    let t := triageOf row
    let cs := consciousnessState row
    let hr := row.heart_rate_bpm.getD 0
    let spo2 := row.spo2_percent.getD 0
    let temp := row.temperature_c.getD 0
    { status := t.status
      alert := t.alert
      color := t.color
      ai_treatment := ai_treatment
      priority := t.max_severity
      consciousness_state := cs.1
      consciousness_color := cs.2
      hr := hr
      spo2 := spo2
      temp := temp
      hr_delta := hr - 80
      spo2_delta := spo2 - 97
      temp_delta := temp - 37
      short_alerts := t.short_alerts })

/-- One row of the static clinical knowledge base (`clinical_knowledge_base`,
app.py line 378): primary-complaint keywords, secondary-sign keywords,
possible cause, immediate action, possible complications.  The sixth tuple
component of `knowledge_base_source` (the ML label) is dropped by the
comprehension building `clinical_knowledge_base` and is not part of the
scorer's data. -/
structure DiagnosisRule where
  primary_complaints : List String
  secondary_signs : List String
  cause : String
  action : String
  complications : String
deriving DecidableEq, Repr

/-- The static knowledge base, transcribed from `knowledge_base_source`
(app.py lines 315-376) in source order. -/
def clinical_knowledge_base : List DiagnosisRule := [
  ⟨["unconscious", "unknown cause"], ["no response", "limp"], "Unconscious - unknown cause", "Check airway, breathing, circulation (ABC), oxygen, rapid transport", "Hypoxia, brain damage"⟩,
  ⟨["unconscious", "head injury"], ["vomiting", "unequal pupils"], "Unconscious - head injury", "Airway, cervical spine immobilization, oxygen, transport", "Brain hemorrhage"⟩,
  ⟨["unconscious", "hypoglycemia"], ["sweating", "confusion"], "Unconscious - hypoglycemia", "IV glucose if available, monitor airway, transport", "Seizure, brain injury"⟩,
  ⟨["unconscious", "cardiac arrest"], ["no pulse", "no breathing"], "Unconscious - cardiac arrest", "CPR, defibrillation if available, rapid transport", "Death"⟩,
  ⟨["chest pain", "mi"], ["crushing chest pain", "sweating"], "Chest Pain - MI", "Oxygen, ECG, aspirin, rapid transport", "Cardiac arrest"⟩,
  ⟨["chest pain", "angina"], ["pressure", "mild sob"], "Chest Pain - Angina", "Oxygen, monitor vitals, transport", "Risk of MI"⟩,
  ⟨["chest pain", "pulmonary embolism"], ["sudden chest pain", "dyspnea"], "Chest Pain - Pulmonary embolism", "Oxygen, monitor vitals, transport", "Cardiac arrest"⟩,
  ⟨["chest pain", "pneumothorax"], ["sharp pain", "dyspnea"], "Chest Pain - Pneumothorax", "Oxygen, monitor, rapid transport", "Respiratory failure"⟩,
  ⟨["accident", "trauma", "fracture"], ["pain", "swelling", "deformity", "bleeding"], "Accident/Trauma - fracture", "Immobilize, control bleeding, monitor vitals, transport", "Blood loss, infection, shock"⟩,
  ⟨["bleeding", "hemorrhage"], ["major bleeding", "trauma", "laceration"], "Major Bleeding / Hemorrhage", "Apply Direct Pressure, elevate limb, consider tourniquet for uncontrollable limb bleeding", "Hypovolemic Shock"⟩,
  ⟨["accident", "trauma", "head injury"], ["confusion", "vomiting"], "Accident/Trauma - head injury", "Airway, cervical immobilization, oxygen, transport", "Brain bleed, coma"⟩,
  ⟨["accident", "trauma", "spinal injury"], ["paralysis", "numbness"], "Accident/Trauma - spinal injury", "Spinal immobilization, airway, transport", "Permanent Disability"⟩,
  ⟨["fever", "sepsis"], ["low bp", "confusion", "high temp"], "Fever - sepsis", "Oxygen, IV fluids, rapid transport", "Organ failure"⟩,
  ⟨["seizure", "tonic-clonic"], ["convulsions", "loss of consciousness"], "Seizure - tonic-clonic", "Protect patient, monitor airway, oxygen, transport", "Hypoxia, injury"⟩,
  ⟨["poisoning", "ingestion"], ["vomiting", "abdominal pain"], "Poisoning - Ingestion", "Identify poison, monitor airway, transport", "Organ failure, shock"⟩,
  ⟨["poisoning", "overdose"], ["confusion", "slow breathing"], "Poisoning - Drug Overdose", "Airway, oxygen, antidote (if available), transport", "Coma, respiratory arrest"⟩,
  ⟨["poisoning", "inhalation"], ["dizziness", "breathlessness"], "Poisoning - Inhalation (Toxic Gas)", "Remove exposure, give oxygen, transport", "Respiratory failure"⟩,
  ⟨["stroke", "ischemic"], ["facial droop", "arm weakness", "slurred speech"], "Stroke - Ischemic", "Oxygen, monitor vitals, rapid transport to stroke center", "Paralysis, brain damage"⟩,
  ⟨["stroke", "hemorrhagic"], ["sudden severe headache", "vomiting"], "Stroke - Hemorrhagic", "Airway, oxygen, elevate head, rapid transport", "Brain bleed, death"⟩,
  ⟨["stroke", "tia"], ["temporary weakness", "slurred speech"], "Stroke - TIA (Mini Stroke)", "Monitor, maintain airway, urgent hospital evaluation", "Recurrent stroke risk"⟩,
  ⟨["chest pain", "severe"], ["pain radiating to arm/jaw", "sweating"], "Acute Coronary Syndrome", "O₂, ECG monitoring, aspirin, cardiac support", "Myocardial infarction"⟩,
  ⟨["unconsciousness"], ["no response", "low pulse"], "Coma / Cardiac Arrest", "ABC check, O₂, recovery position", "Brain injury, cardiac arrest"⟩,
  ⟨["bleeding", "severe"], ["continuous bleeding", "pallor"], "Hemorrhagic Shock", "Apply pressure, IV fluids, urgent transfer", "Shock, organ failure"⟩,
  ⟨["stroke"], ["slurred speech", "facial droop"], "Acute Stroke", "FAST test, O₂, rapid transport", "Brain ischemia, paralysis"⟩,
  ⟨["breathing difficulty", "severe"], ["cyanosis", "low spo2"], "Respiratory Distress", "O₂, airway management, monitor SpO₂", "Respiratory failure"⟩,
  ⟨["accident trauma", "major"], ["fractures", "bleeding"], "Multi-System Trauma", "Immobilize spine, airway, IV fluids", "Internal bleeding"⟩,
  ⟨["seizure", "ongoing"], ["convulsions >5 min"], "Neurological Emergency", "Protect from injury, O₂, IV access", "Status epilepticus"⟩,
  ⟨["poisoning", "severe"], ["vomiting", "confusion", "seizure"], "Toxicological Crisis", "Identify poison, airway, O₂, rapid transport", "Respiratory arrest, coma"⟩,
  ⟨["pregnancy", "bleeding"], ["vaginal bleeding", "dizziness"], "Obstetric Hemorrhage", "Left lateral position, O₂, transport fast", "Miscarriage, hemorrhage"⟩,
  ⟨["abdominal pain", "severe"], ["guarding", "rigidity"], "GI / Internal Injury", "IV fluids, NPO, hospital transfer", "Peritonitis, internal bleeding"⟩,
  ⟨["chest pain", "mild"], ["localized pain", "tender ribs"], "Musculoskeletal Pain", "Reassure, rest", "Muscular pain"⟩,
  ⟨["fever", "high grade"], [">102°f", "chills"], "Infectious Fever", "Tepid sponge, fluids, antibiotics", "Sepsis, meningitis"⟩,
  ⟨["fever", "low grade"], ["99–101°f", "mild fatigue"], "Viral Infection", "Rest, fluids, paracetamol", "Viral infection"⟩,
  ⟨["bleeding", "minor"], ["small wound"], "Minor Injury", "Clean wound, antiseptic dressing", "Local infection"⟩,
  ⟨["seizure", "single"], ["short convulsion", "recovery"], "Isolated Seizure", "Protect from injury, monitor", "Epileptic event"⟩,
  ⟨["pregnancy", "labor"], ["regular contractions", "back pain"], "Active Labor", "Prepare delivery kit, monitor fetal movement", "Normal / preterm labor"⟩,
  ⟨["accident", "minor"], ["bruises", "abrasions"], "Minor Trauma", "Clean wound, apply dressing", "Local infection"⟩,
  ⟨["stroke", "tia"], ["temporary weakness"], "Mini Stroke", "FAST test, O₂, referral", "Major stroke risk"⟩,
  ⟨["unconsciousness", "fainting"], ["short loss of consciousness"], "Syncope", "Lay flat, check glucose", "Hypoglycemia, dehydration"⟩,
  ⟨["breathing difficulty", "asthma"], ["wheezing", "tight chest"], "Asthma Attack", "Sit upright, O₂, inhaler", "Asthma exacerbation"⟩,
  ⟨["poisoning", "mild"], ["nausea", "vomiting"], "Mild Toxicity", "Oral fluids, monitor", "GI irritation"⟩,
  ⟨["abdominal pain", "mild"], ["cramps", "bloating"], "GI Discomfort", "Fluids, rest", "Gastritis"⟩,
  ⟨["fever", "dengue suspect"], ["high fever", "rash", "joint pain"], "Dengue / Viral Hemorrhagic Fever", "IV fluids, O₂ if low BP", "Shock, dehydration"⟩,
  ⟨["accident trauma", "head injury"], ["bleeding from scalp", "vomiting"], "Head Trauma", "Immobilize head, O₂, rapid transfer", "Brain injury, internal bleed"⟩,
  ⟨["seizure", "postpartum"], ["convulsions after delivery"], "Postpartum Eclampsia", "Protect airway, MgSO₄, urgent transfer", "Eclampsia"⟩,
  ⟨["pregnancy", "high bp"], ["swelling", "headache", "blurred vision"], "Pregnancy Hypertension", "Monitor BP, left lateral, hospital transfer", "Pre-eclampsia"⟩,
  ⟨["chest pain", "anxiety"], ["fast breathing", "panic"], "Anxiety Episode", "Reassure, deep breathing", "Hyperventilation"⟩,
  ⟨["breathing difficulty", "copd"], ["chronic cough", "fatigue"], "COPD Exacerbation", "O₂ support, nebulization", "Hypoxia"⟩,
  ⟨["abdominal pain", "pregnancy"], ["cramping", "back pain"], "Labor Onset", "Monitor contractions, prepare for delivery", "Preterm labor"⟩,
  ⟨["bleeding", "nosebleed"], ["nasal bleeding"], "Epistaxis", "Pinch nose, tilt forward, ice", "Hypertension, local injury"⟩,
  ⟨["stroke", "severe"], ["unconscious", "unequal pupils"], "Hemorrhagic Stroke", "O₂, rapid neuro referral", "Cerebral hemorrhage"⟩,
  ⟨["fever", "child"], ["crying", "hot skin"], "Pediatric Fever", "Tepid sponge, paracetamol", "Febrile seizure"⟩,
  ⟨["unconsciousness", "after seizure"], ["postictal confusion"], "Post-Seizure State", "O₂, airway check", "Brain hypoxia"⟩,
  ⟨["pregnancy", "normal"], ["mild back pain", "nausea"], "Normal Pregnancy", "Hydration, observation", "Stable"⟩,
  ⟨["accident trauma", "chest"], ["pain", "difficulty breathing"], "Chest Trauma", "Immobilize, O₂, urgent care", "Rib fracture, pneumothorax"⟩,
  ⟨["poisoning", "inhalation"], ["cough", "breathlessness"], "Inhalation Poisoning", "Remove from area, O₂", "Chemical pneumonitis"⟩,
  ⟨["abdominal pain", "child"], ["crying", "vomiting"], "Pediatric GI Emergency", "NPO, transport fast", "Appendicitis"⟩,
  ⟨["breathing difficulty", "allergy"], ["swelling", "rash", "low bp"], "Anaphylactic Shock", "Adrenaline, O₂, IV fluids", "Anaphylaxis"⟩,
  ⟨["seizure", "fever induced"], ["high fever", "jerking"], "Febrile Convulsion", "Tepid sponge, monitor", "Febrile seizure"⟩,
  ⟨["pregnancy", "postpartum bleeding"], ["heavy bleeding after delivery"], "Postpartum Hemorrhage", "Fundal massage, IV fluids, urgent transfer", "Shock, death"⟩]

/-- Lower-cased chief complaint (app.py line 710). -/
def complaintOf (row : PatientRow) : String := strToLower row.chief_complaint

/-- Lower-cased consciousness text (app.py line 711). -/
def consciousnessOf (row : PatientRow) : String := strToLower row.consciousness

/-- app.py line 722: after the 0-fill of line 720 the `pd.notna` guard is
vacuously true, so a missing/unparseable GCS compares as `0 ≤ 8`. -/
def is_low_gcs (row : PatientRow) : Bool := decide (row.gcs.getD 0 ≤ 8)

/-- app.py line 723. -/
def is_unconscious (row : PatientRow) : Bool :=
  containsSub (consciousnessOf row) "unresponsive"
    || containsSub (complaintOf row) "unconscious"
    || is_low_gcs row

/-- app.py line 724 (systolic BP 0-filled before the comparison). -/
def is_low_bp (row : PatientRow) : Bool := decide (row.systolic_bp_mmHg.getD 0 < 90)

/-- app.py line 725 (heart rate 0-filled before the comparison). -/
def is_high_hr (row : PatientRow) : Bool := decide (row.heart_rate_bpm.getD 0 > 100)

/-- app.py line 726: `temp_c` is *not* the 0-filled value (line 720 binds
the filled value to `temp_c_filled`), so a NaN temperature keeps the
`pd.notna` guard false. -/
def is_high_temp (row : PatientRow) : Bool :=
  match row.temperature_c with
  | none => false
  | some t => decide (t > 38)

/-- The fixed root-cause vocabulary (app.py line 728). -/
def ROOT_CAUSE_KEYWORDS : List String :=
  ["bleeding", "hemorrhage", "trauma", "fracture", "accident", "chest pain", "mi",
   "heart attack", "cardiac arrest", "burn", "seizure", "stroke", "poisoning",
   "overdose", "pregnancy", "allergy"]

/-- app.py line 730: some root-cause keyword occurs in the lower-cased
complaint. -/
def patient_has_root_cause_keyword (row : PatientRow) : Bool :=
  ROOT_CAUSE_KEYWORDS.any (fun k => containsSub (complaintOf row) k)

/-- The rule's primary keywords found in the complaint, in rule order
(the loop of app.py line 736-737). -/
def primaryMatchList (row : PatientRow) (rule : DiagnosisRule) : List String :=
  rule.primary_complaints.filter (fun k => containsSub (complaintOf row) k)

/-- `primary_text_score`: +10 per primary keyword found (app.py line 737). -/
def primary_text_score (row : PatientRow) (rule : DiagnosisRule) : Nat :=
  10 * (primaryMatchList row rule).length

/-- The rule's secondary signs found in the complaint, in rule order
(the loop of app.py lines 738-739). -/
def secondaryMatchList (row : PatientRow) (rule : DiagnosisRule) : List String :=
  rule.secondary_signs.filter (fun k => containsSub (complaintOf row) k)

/-- `secondary_text_score`: +2 per secondary sign found (app.py line 739). -/
def secondary_text_score (row : PatientRow) (rule : DiagnosisRule) : Nat :=
  2 * (secondaryMatchList row rule).length

/-- The compatibility test of app.py line 741: the rule lists one of
`"unconscious"`, `"confusion"`, `"no response"` among its secondary signs. -/
def unconsciousCompatSign (rule : DiagnosisRule) : Bool :=
  ["unconscious", "confusion", "no response"].any (fun s => rule.secondary_signs.contains s)

/-- The +3 unconscious/confused vitals bonus (app.py line 741). -/
def unconsciousBonus (row : PatientRow) (rule : DiagnosisRule) : Nat :=
  if is_unconscious row && unconsciousCompatSign rule then 3 else 0

/-- The +3 low-blood-pressure vitals bonus (app.py line 742). -/
def lowBpBonus (row : PatientRow) (rule : DiagnosisRule) : Nat :=
  if is_low_bp row && rule.secondary_signs.contains "low bp" then 3 else 0

/-- The +3 fast-heart-rate vitals bonus (app.py line 743). -/
def highHrBonus (row : PatientRow) (rule : DiagnosisRule) : Nat :=
  if is_high_hr row && (["fast hr", "rapid pulse"].any (fun s => rule.secondary_signs.contains s)) then 3 else 0

/-- The +3 fever vitals bonus (app.py line 744). -/
def feverBonus (row : PatientRow) (rule : DiagnosisRule) : Nat :=
  if is_high_temp row && (["fever", "high temp"].any (fun s => rule.secondary_signs.contains s)) then 3 else 0

/-- `vitals_score`: the sum of the four +3 bonuses (app.py lines 741-744). -/
def vitals_score (row : PatientRow) (rule : DiagnosisRule) : Nat :=
  unconsciousBonus row rule + lowBpBonus row rule + highHrBonus row rule + feverBonus row rule

/-- The +50 root-cause bonus (app.py lines 746-747): the complaint contains a
root-cause keyword, the rule's primary keywords already scored, and one of
the rule's primary keywords is itself a member of the vocabulary (exact list
membership, `p in ROOT_CAUSE_KEYWORDS`). -/
def root_cause_bonus (row : PatientRow) (rule : DiagnosisRule) : Nat :=
  if patient_has_root_cause_keyword row && decide (0 < primary_text_score row rule)
      && rule.primary_complaints.any (fun p => ROOT_CAUSE_KEYWORDS.contains p) then
    50
  else 0

/-- `total_score` (app.py line 749). -/
def total_score (row : PatientRow) (rule : DiagnosisRule) : Nat :=
  primary_text_score row rule + secondary_text_score row rule
    + vitals_score row rule + root_cause_bonus row rule

/-- The vitals-derived labels appended to `matched_symptoms`, in the order
of the four checks (app.py lines 741-744). -/
def vitalsLabels (row : PatientRow) (rule : DiagnosisRule) : List String :=
  (if is_unconscious row && unconsciousCompatSign rule then ["Unconscious/Confused"] else [])
  ++ (if is_low_bp row && rule.secondary_signs.contains "low bp" then ["Low BP"] else [])
  ++ (if is_high_hr row && (["fast hr", "rapid pulse"].any (fun s => rule.secondary_signs.contains s)) then ["High HR"] else [])
  ++ (if is_high_temp row && (["fever", "high temp"].any (fun s => rule.secondary_signs.contains s)) then ["Fever"] else [])

/-- `matched_symptoms` in append order: title-cased primary matches, then
title-cased secondary matches, then the vitals labels (app.py lines
734-744). -/
def matchedSymptoms (row : PatientRow) (rule : DiagnosisRule) : List String :=
  (primaryMatchList row rule).map pyTitle
    ++ (secondaryMatchList row rule).map pyTitle
    ++ vitalsLabels row rule

/-- The `"Patient Signs / Symptoms Matched"` display string (app.py line
753): comma-join of the de-duplicated symptom set when any symptom was
recorded, otherwise the fallback string.  (`list(set(...))` has no
specified order; `List.dedup` fixes one, and no theorem depends on it.) -/
def insightLabel (row : PatientRow) (rule : DiagnosisRule) : String :=
  if (matchedSymptoms row rule).isEmpty then "Based on Chief Complaint"
  else ", ".intercalate (matchedSymptoms row rule).dedup

/-- One scorer output entry: the rule copy plus the matched-symptoms display
string (`insight_data`, app.py lines 752-753). -/
structure Insight where
  rule : DiagnosisRule
  matchedLabel : String
deriving DecidableEq, Repr

/-- A scored entry of `scored_rules` (app.py line 754). -/
structure ScoredRule where
  score : Nat
  insight : Insight
deriving DecidableEq, Repr

/-- The `scored_rules` accumulator: one entry per knowledge-base rule with
`total_score > 0`, in knowledge-base order (the loop of app.py lines
732-754). -/
def scoredRules (row : PatientRow) : List ScoredRule :=
  clinical_knowledge_base.filterMap (fun rule =>
    if 0 < total_score row rule then
      some ⟨total_score row rule, ⟨rule, insightLabel row rule⟩⟩
    else none)

/-- `sorted_insights` (app.py line 756): stable sort by descending score. -/
def sortedInsights (row : PatientRow) : List ScoredRule :=
  sortByKeyDesc (fun e => e.score) (scoredRules row)

/-- Shallow embedding of `get_clinical_insights` (app.py lines 708-757):
the top three scored insights, scores dropped. -/
def get_clinical_insights (row : PatientRow) : List Insight :=
  ((sortedInsights row).take 3).map (fun e => e.insight)

/-- The fixed complaint-keyword → protocol-name lookup table
(`COMPLAINT_TO_PROTOCOL`, app.py lines 381-388), in source order. -/
def COMPLAINT_TO_PROTOCOL : List (String × String) := [
  ("bleeding", "Direct Pressure"), ("breathing", "Administer Oxygen"),
  ("unconscious", "Recovery Position"), ("cardiac", "Start CPR"),
  ("arrest", "Start CPR"), ("chest pain", "Administer Medication"),
  ("heart attack", "Administer Medication"), ("fracture", "Immobilize Limb"),
  ("trauma", "Immobilize Limb"), ("burn", "Cool Burns"),
  ("shock", "Manage Shock"), ("seizure", "Seizure Care"),
  ("stroke", "Recovery Position"), ("poison", "Default"),
  ("accident", "Immobilize Limb"), ("fever", "Default"),
  ("abdominal", "Default"), ("pregnancy", "Default"),
  ("allergy", "Administer Oxygen")]

/-- The key set of the static protocol library (`PROTOCOLS`, app.py lines
235-312), in source order.  The mapped values are markdown display
documents; only the key set participates in the resolution logic. -/
def PROTOCOL_KEYS : List String :=
  ["Primary Survey", "Direct Pressure", "Start CPR", "Administer Oxygen",
   "Administer Medication", "Recovery Position", "Immobilize Limb",
   "Cool Burns", "Manage Shock", "Seizure Care", "Default"]

/-- Stable ascending insertion for strings (ties keep the earlier element
first), used to model Python's `sorted` on protocol names. -/
def insertStringAsc (x : String) : List String → List String
  | [] => [x]
  | y :: ys => if y < x then y :: insertStringAsc x ys else x :: y :: ys

/-- Stable ascending string sort modelling Python's `sorted(list(...))`. -/
def sortStringsAsc : List String → List String
  | [] => []
  | x :: xs => insertStringAsc x (sortStringsAsc xs)

/-- `relevant_keys` (app.py lines 902-903): every protocol mapped from a
table keyword that occurs in the lower-cased chief complaint, plus the
protocol named exactly after the predicted treatment label when the library
has one.  `cc` is the already lower-cased complaint; the Python value is a
set, modelled as this list up to de-duplication. -/
def resolveProtocolKeys (cc : String) (ai_treatment : String) : List String :=
  (COMPLAINT_TO_PROTOCOL.filterMap (fun kp =>
    if containsSub cc kp.1 then some kp.2 else none))
  ++ (if PROTOCOL_KEYS.contains ai_treatment then [ai_treatment] else [])

/-- The protocol names actually displayed (app.py lines 905-913): the
default ongoing-care protocol alone when the resolved set is empty,
otherwise the sorted de-duplicated resolved names. -/
def displayedProtocolKeys (cc : String) (ai_treatment : String) : List String :=
  let ks := resolveProtocolKeys cc ai_treatment
  if ks.isEmpty then ["Default"] else sortStringsAsc ks.dedup

/-- The external Fernet cipher as an abstract box: a total encryption
function and a decryption that may fail (raise), per the spec's
encryption-box interface. -/
structure FernetCipher where
  encryptFn : String → String
  decryptFn : String → Option String

/-- Shallow embedding of `encrypt_data` (app.py lines 408-416): `none` for a
null/missing input (`pd.isna` or `None`), otherwise the ciphertext of the
text.  A present empty string is *not* null: `pd.isna("")` is false, so it
is encrypted like any other string. -/
def encrypt_data (text : Option String) (cipher : FernetCipher) : Option String :=
  match text with
  | none => none
  | some t => some (cipher.encryptFn t)

/-- Shallow embedding of `decrypt_data` (app.py lines 418-426): the missing
sentinel for a null input, the decrypted text on success, the failure
sentinel when decryption raises. -/
def decrypt_data (encrypted_text : Option String) (cipher : FernetCipher) : String :=
  match encrypted_text with
  | none => "N/A (Encrypted data missing)"
  | some c =>
    match cipher.decryptFn c with
    | some t => t
    | none => "Decryption Error"

/-- A concrete cipher satisfying the Fernet round-trip contract, used to
witness/refute closed statements: prepends a tag character on encryption
and strips it on decryption. -/
def toyFernet : FernetCipher :=
  { encryptFn := fun s => String.mk ('T' :: s.data)
    decryptFn := fun s =>
      match s.data with
      | c :: rest => if c = 'T' then some (String.mk rest) else none
      | [] => none }

/-- The spec's wording of the "flagged unconscious/confused" condition in
the +3 bonus rule (§4.3): consciousness text contains an unresponsive
marker, or `"unconscious"`, `"confusion"`, or `"no response"` appears in
the complaint.  Stated from the spec's words to compare against the
source's `is_unconscious` (which instead checks only `"unconscious"` in
the complaint and adds a GCS ≤ 8 disjunct). -/
def specFlaggedUnconsciousConfused (row : PatientRow) : Bool :=
  containsSub (consciousnessOf row) "unresponsive"
    || containsSub (complaintOf row) "unconscious"
    || containsSub (complaintOf row) "confusion"
    || containsSub (complaintOf row) "no response"

/-- Knowledge-base rule by index (placeholder rule out of range). -/
def kbRule (i : Nat) : DiagnosisRule :=
  clinical_knowledge_base.getD i ⟨[], [], "", "", ""⟩

/-- A concrete error value for the failing-classifier scenarios. -/
def schemaMismatch : InferenceError := InferenceError.predictFailure "feature-schema mismatch"

/-- A classifier stub whose `predict` always raises. -/
def failingPredict : TreatmentInput → Except InferenceError String :=
  fun _ => Except.error schemaMismatch

/-- Concrete row with one critical tachycardia finding (HR 160) and
otherwise normal vitals. -/
def rowTachy : PatientRow :=
  { age := some 50, heart_rate_bpm := some 160, spo2_percent := some 99,
    systolic_bp_mmHg := some 120, diastolic_bp_mmHg := some 80,
    respiratory_rate_bpm := some 16, temperature_c := some 37,
    gcs := some 15, consciousness := "Alert", chief_complaint := "chest pain" }

/-- Concrete row with every vital in the normal range (zero findings). -/
def rowStable : PatientRow :=
  { age := some 40, heart_rate_bpm := some 80, spo2_percent := some 97,
    systolic_bp_mmHg := some 120, diastolic_bp_mmHg := some 80,
    respiratory_rate_bpm := some 16, temperature_c := some 37,
    gcs := some 15, consciousness := "Alert", chief_complaint := "" }

/-- Concrete row with severe hypoxia (SpO₂ 70) and otherwise normal
vitals. -/
def rowHypoxia : PatientRow :=
  { age := some 40, heart_rate_bpm := some 80, spo2_percent := some 70,
    systolic_bp_mmHg := some 120, diastolic_bp_mmHg := some 80,
    respiratory_rate_bpm := some 16, temperature_c := some 37,
    gcs := some 15, consciousness := "Alert", chief_complaint := "" }

/-- Concrete row whose complaint contains `"confusion"` while the
consciousness text is `"Alert"` and the GCS is 15. -/
def rowConfusion : PatientRow :=
  { age := some 40, heart_rate_bpm := some 80, spo2_percent := some 97,
    systolic_bp_mmHg := some 120, diastolic_bp_mmHg := some 80,
    respiratory_rate_bpm := some 16, temperature_c := some 37,
    gcs := some 15, consciousness := "Alert", chief_complaint := "confusion" }

/-- Concrete row with an empty complaint and low systolic blood pressure
(80): the only matching signal for any rule is the vitals-only low-BP
bonus. -/
def rowVitalsOnly : PatientRow :=
  { age := some 40, heart_rate_bpm := some 80, spo2_percent := some 97,
    systolic_bp_mmHg := some 80, diastolic_bp_mmHg := some 70,
    respiratory_rate_bpm := some 16, temperature_c := some 37,
    gcs := some 15, consciousness := "", chief_complaint := "" }

/-- Concrete row whose GCS field is missing/unparseable while its
consciousness text reads `"Alert"`. -/
def rowNoGcs : PatientRow :=
  { age := some 40, heart_rate_bpm := some 80, spo2_percent := some 97,
    systolic_bp_mmHg := some 120, diastolic_bp_mmHg := some 80,
    respiratory_rate_bpm := some 16, temperature_c := some 37,
    gcs := none, consciousness := "Alert", chief_complaint := "" }

/-- Recognizer for the two SpO₂ findings of the triage table (their short
labels are unique to the SpO₂ block). -/
def isSpO2Finding (f : Finding) : Bool :=
  f.short == "Critically Low SpO₂" || f.short == "Low SpO₂"

theorem mem_insertByKeyDesc {α : Type} {key : α → Nat} {x a : α} {l : List α} :
    a ∈ insertByKeyDesc key x l ↔ a = x ∨ a ∈ l := by
  induction l with
  | nil => simp [insertByKeyDesc]
  | cons y ys ih =>
    unfold insertByKeyDesc
    split
    · simp [List.mem_cons]
    · simp only [List.mem_cons, ih]
      tauto

theorem pairwise_insertByKeyDesc {α : Type} {key : α → Nat} {x : α} {l : List α}
    (h : l.Pairwise (fun a b => key b ≤ key a)) :
    (insertByKeyDesc key x l).Pairwise (fun a b => key b ≤ key a) := by
  induction l with
  | nil => simp [insertByKeyDesc]
  | cons y ys ih =>
    rw [List.pairwise_cons] at h
    unfold insertByKeyDesc
    split
    case isTrue hle =>
      rw [List.pairwise_cons]
      refine ⟨?_, List.pairwise_cons.mpr h⟩
      intro b hb
      rcases List.mem_cons.mp hb with rfl | hb
      · exact hle
      · exact le_trans (h.1 b hb) hle
    case isFalse hgt =>
      rw [List.pairwise_cons]
      refine ⟨?_, ih h.2⟩
      intro b hb
      rcases mem_insertByKeyDesc.mp hb with rfl | hb
      · omega
      · exact h.1 b hb

theorem pairwise_sortByKeyDesc {α : Type} (key : α → Nat) (l : List α) :
    (sortByKeyDesc key l).Pairwise (fun a b => key b ≤ key a) := by
  induction l with
  | nil => simp [sortByKeyDesc]
  | cons x xs ih => exact pairwise_insertByKeyDesc ih

theorem filter_key_insertByKeyDesc {α : Type} {key : α → Nat} (s : Nat) (x : α) (l : List α) :
    (insertByKeyDesc key x l).filter (fun a => key a == s)
      = if key x = s then x :: l.filter (fun a => key a == s)
        else l.filter (fun a => key a == s) := by
  induction l with
  | nil =>
    by_cases hx : key x = s <;> simp [insertByKeyDesc, List.filter_cons, hx]
  | cons y ys ih =>
    unfold insertByKeyDesc
    split
    case isTrue hle =>
      by_cases hx : key x = s <;> simp [List.filter_cons, hx]
    case isFalse hgt =>
      rw [List.filter_cons, ih]
      by_cases hx : key x = s
      · have hy : key y ≠ s := by omega
        simp [List.filter_cons, hx, hy]
      · by_cases hy : key y = s <;> simp [List.filter_cons, hx, hy]

theorem filter_key_sortByKeyDesc {α : Type} {key : α → Nat} (s : Nat) (l : List α) :
    (sortByKeyDesc key l).filter (fun a => key a == s) = l.filter (fun a => key a == s) := by
  induction l with
  | nil => rfl
  | cons x xs ih =>
    rw [sortByKeyDesc, filter_key_insertByKeyDesc, ih, List.filter_cons]
    by_cases hx : key x = s <;> simp [hx]

theorem mem_sortByKeyDesc {α : Type} {key : α → Nat} {a : α} {l : List α} :
    a ∈ sortByKeyDesc key l ↔ a ∈ l := by
  induction l with
  | nil => simp [sortByKeyDesc]
  | cons x xs ih => simp [sortByKeyDesc, mem_insertByKeyDesc, ih]

theorem pairwise_two_valued_decomp {α : Type} {key : α → Nat} {l : List α}
    (hp : l.Pairwise (fun a b => key b ≤ key a))
    (hv : ∀ x ∈ l, key x = 1 ∨ key x = 2) :
    l = l.filter (fun a => key a == 2) ++ l.filter (fun a => key a == 1) := by
  induction l with
  | nil => rfl
  | cons x xs ih =>
    rw [List.pairwise_cons] at hp
    have hvxs : ∀ b ∈ xs, key b = 1 ∨ key b = 2 :=
      fun b hb => hv b (List.mem_cons_of_mem x hb)
    rcases hv x (List.mem_cons_self x xs) with h1 | h2
    · have hall : ∀ b ∈ xs, key b = 1 := by
        intro b hb
        have hle := hp.1 b hb
        rcases hvxs b hb with hb1 | hb2
        · exact hb1
        · omega
      have h2f : (x :: xs).filter (fun a => key a == 2) = [] := by
        rw [List.filter_eq_nil_iff]
        intro a ha
        rcases List.mem_cons.mp ha with rfl | ha
        · simp [h1]
        · simp [hall a ha]
      have h1f : (x :: xs).filter (fun a => key a == 1) = x :: xs := by
        rw [List.filter_eq_self]
        intro a ha
        rcases List.mem_cons.mp ha with rfl | ha
        · simp [h1]
        · simp [hall a ha]
      rw [h2f, h1f]
      rfl
    · rw [List.filter_cons, List.filter_cons]
      simp only [h2]
      norm_num
      exact ih hp.2 hvxs

theorem le_foldl_max_init (l : List Nat) (a : Nat) : a ≤ l.foldl max a := by
  induction l generalizing a with
  | nil => exact Nat.le_refl a
  | cons x xs ih => exact le_trans (Nat.le_max_left a x) (ih (max a x))

theorem mem_le_foldl_max {l : List Nat} {x : Nat} (h : x ∈ l) (a : Nat) :
    x ≤ l.foldl max a := by
  induction l generalizing a with
  | nil => cases h
  | cons y ys ih =>
    rcases List.mem_cons.mp h with rfl | h
    · exact le_trans (Nat.le_max_right a x) (le_foldl_max_init ys (max a x))
    · exact ih h (max a y)

theorem foldl_max_mem (l : List Nat) (a : Nat) : l.foldl max a = a ∨ l.foldl max a ∈ l := by
  induction l generalizing a with
  | nil => exact Or.inl rfl
  | cons x xs ih =>
    rcases ih (max a x) with h | h
    · rcases max_choice a x with hm | hm
      · exact Or.inl (by rw [List.foldl_cons, h, hm])
      · exact Or.inr (by rw [List.foldl_cons, h, hm]; exact List.mem_cons_self x xs)
    · exact Or.inr (List.mem_cons_of_mem x h)

theorem foldl_max_zero_mem {l : List Nat} (h : l ≠ []) : l.foldl max 0 ∈ l := by
  rcases foldl_max_mem l 0 with h0 | hm
  · cases l with
    | nil => exact absurd rfl h
    | cons x xs =>
      have hx : x ≤ (x :: xs).foldl max 0 := mem_le_foldl_max (List.mem_cons_self x xs) 0
      rw [h0] at hx
      have hx0 : x = 0 := Nat.le_zero.mp hx
      rw [h0, ← hx0]
      exact List.mem_cons_self x xs
  · exact hm

theorem mem_iteBlock {f a b : Finding} {c1 c2 : Prop} [Decidable c1] [Decidable c2]
    (h : f ∈ (if c1 then [a] else if c2 then [b] else [])) : f = a ∨ f = b := by
  split at h
  · exact Or.inl (List.mem_singleton.mp h)
  · split at h
    · exact Or.inr (List.mem_singleton.mp h)
    · exact absurd h (List.not_mem_nil f)

theorem mem_iteBlockOne {f a : Finding} {c : Prop} [Decidable c]
    (h : f ∈ (if c then [a] else [])) : f = a := by
  split at h
  · exact List.mem_singleton.mp h
  · exact absurd h (List.not_mem_nil f)

theorem auditFindings_severity {hr spo2 sbp dbp rr temp : ℚ} {f : Finding}
    (h : f ∈ auditFindings hr spo2 sbp dbp rr temp) :
    f.severity = 1 ∨ f.severity = 2 := by
  unfold auditFindings at h
  simp only [List.mem_append] at h
  rcases h with ((((((((h | h) | h) | h) | h) | h) | h) | h) | h)
  all_goals first
    | (rcases mem_iteBlock h with rfl | rfl <;> simp)
    | (rw [mem_iteBlockOne h]; simp)

theorem filter_iteBlock_nil (p : Finding → Bool) {c1 c2 : Prop} [Decidable c1] [Decidable c2]
    (a b : Finding) (ha : p a = false) (hb : p b = false) :
    (if c1 then [a] else if c2 then [b] else []).filter p = [] := by
  split
  · simp [List.filter_cons, ha]
  · split
    · simp [List.filter_cons, hb]
    · rfl

theorem filter_iteBlockOne_nil (p : Finding → Bool) {c : Prop} [Decidable c]
    (a : Finding) (ha : p a = false) :
    (if c then [a] else []).filter p = [] := by
  split
  · simp [List.filter_cons, ha]
  · rfl

theorem auditFindings_spo2_critical {hr spo2 sbp dbp rr temp : ℚ} (h : spo2 < 85) :
    (auditFindings hr spo2 sbp dbp rr temp).filter isSpO2Finding
      = [⟨2, "Critical: Severe Hypoxia (SpO₂ < 85%)", "Critically Low SpO₂"⟩] := by
  unfold auditFindings
  rw [if_pos h]
  simp only [List.filter_append]
  repeat rw [filter_iteBlock_nil isSpO2Finding _ _ (by decide) (by decide)]
  rw [filter_iteBlockOne_nil isSpO2Finding _ (by decide)]
  simp [List.filter_cons, isSpO2Finding]

theorem scoredRules_pos {row : PatientRow} {e : ScoredRule} (h : e ∈ scoredRules row) :
    0 < e.score := by
  rcases List.mem_filterMap.mp h with ⟨rule, _, hrule⟩
  by_cases hpos : 0 < total_score row rule
  · rw [if_pos hpos] at hrule
    injection hrule with h2
    rw [← h2]
    exact hpos
  · rw [if_neg hpos] at hrule
    cases hrule

/-- C1, counterexample to the claim as stated: on a concrete row with one
critical tachycardia finding, a classifier whose `predict` raises makes
`get_semantic_info` return the `InferenceError` itself — no `SemanticInfo`
is produced, so the triage findings and overall severity (which were
computable: one finding, severity 2) are lost rather than returned. -/
theorem claim_C1_counterexample :
    get_semantic_info rowTachy failingPredict = Except.error schemaMismatch
      ∧ (get_semantic_info rowTachy failingPredict).isOk = false
      ∧ (auditFindingsRow rowTachy).length = 1
      ∧ (triageOf rowTachy).max_severity = 2 := by
  refine ⟨rfl, rfl, ?_, ?_⟩ <;> decide

/-- C1, amended: `get_semantic_info` calls the external classifier before
computing any triage finding and without a `try` guard (app.py line 665
precedes lines 667-706), so whenever `predict` raises, the whole call
propagates exactly that `InferenceError` and neither the triage findings
nor the overall severity are returned. -/
theorem claim_C1_amended (row : PatientRow)
    (predict : TreatmentInput → Except InferenceError String) (e : InferenceError)
    (h : predict (modelInput row) = Except.error e) :
    get_semantic_info row predict = Except.error e := by
  unfold get_semantic_info
  rw [h]
  rfl

/-- C1 witness: the amended theorem applied to the concrete tachycardia row
and the always-raising classifier stub. -/
theorem claim_C1_witness :
    get_semantic_info rowTachy failingPredict = Except.error schemaMismatch :=
  claim_C1_amended rowTachy failingPredict schemaMismatch rfl

/-- C2: for every row, the overall severity `triageOf` reports (the
`priority`/`max_severity` of `get_semantic_info`) is the maximum severity of
the row's findings — an upper bound that is attained — with the zero-finding
case giving `Normal` and the stable-vitals alert text; and for a non-empty
finding list the alert text is the `" | "`-concatenation of the messages
with all critical findings first and the warnings after, each group in the
vital-check evaluation order (the stable descending sort of the source). -/
theorem claim_C2_triage_aggregation (row : PatientRow) :
    (∀ f ∈ auditFindingsRow row, f.severity ≤ (triageOf row).max_severity)
    ∧ (auditFindingsRow row = [] →
        (triageOf row).max_severity = 0 ∧ (triageOf row).status = "Normal"
          ∧ (triageOf row).alert = "All vitals stable.")
    ∧ (auditFindingsRow row ≠ [] →
        (triageOf row).max_severity ∈ (auditFindingsRow row).map (fun f => f.severity)
        ∧ (triageOf row).alert = " | ".intercalate
            (((auditFindingsRow row).filter (fun f => f.severity == 2)
              ++ (auditFindingsRow row).filter (fun f => f.severity == 1)).map
                (fun f => f.message))) := by
  by_cases hemp : auditFindingsRow row = []
  · refine ⟨?_, fun _ => ?_, fun hne => absurd hemp hne⟩
    · intro f hf
      rw [hemp] at hf
      cases hf
    · have hE : (auditFindingsRow row).isEmpty = true := by rw [hemp]; rfl
      refine ⟨?_, ?_, ?_⟩ <;> simp [triageOf, hE, status_map]
  · have hE : (auditFindingsRow row).isEmpty = false := by
      cases hfs : auditFindingsRow row
      · exact absurd hfs hemp
      · rfl
    have hsev : ∀ f ∈ auditFindingsRow row, f.severity = 1 ∨ f.severity = 2 :=
      fun f hf => auditFindings_severity hf
    refine ⟨?_, fun h => absurd h hemp, fun _ => ⟨?_, ?_⟩⟩
    · intro f hf
      simp only [triageOf, hE, Bool.false_eq_true, if_false]
      exact mem_le_foldl_max (List.mem_map_of_mem (fun f => f.severity) hf) 0
    · simp only [triageOf, hE, Bool.false_eq_true, if_false]
      refine foldl_max_zero_mem ?_
      intro hc
      exact hemp (List.map_eq_nil_iff.mp hc)
    · simp only [triageOf, hE, Bool.false_eq_true, if_false]
      have hsort : sortByKeyDesc (fun f => f.severity) (auditFindingsRow row)
          = (auditFindingsRow row).filter (fun f => f.severity == 2)
            ++ (auditFindingsRow row).filter (fun f => f.severity == 1) := by
        have hv2 : ∀ f ∈ sortByKeyDesc (fun f => f.severity) (auditFindingsRow row),
            f.severity = 1 ∨ f.severity = 2 :=
          fun f hf => hsev f (mem_sortByKeyDesc.mp hf)
        have hdec := @pairwise_two_valued_decomp Finding (fun f => f.severity)
          (sortByKeyDesc (fun f => f.severity) (auditFindingsRow row))
          (pairwise_sortByKeyDesc (fun f => f.severity) (auditFindingsRow row)) hv2
        rw [@filter_key_sortByKeyDesc Finding (fun f => f.severity) 2 (auditFindingsRow row),
            @filter_key_sortByKeyDesc Finding (fun f => f.severity) 1 (auditFindingsRow row)]
          at hdec
        exact hdec
      rw [hsort]

/-- C2 witness: on the concrete all-normal row the finding list is empty and
the theorem yields the `Normal` status with the stable-vitals alert text. -/
theorem claim_C2_witness :
    auditFindingsRow rowStable = []
      ∧ (triageOf rowStable).status = "Normal"
      ∧ (triageOf rowStable).alert = "All vitals stable." := by
  have h := (claim_C2_triage_aggregation rowStable).2.1 (by decide)
  exact ⟨by decide, h.2.1, h.2.2⟩

/-- C3: for every row whose 0-filled SpO₂ is strictly below 85 the triage
checks emit exactly one SpO₂ finding — the critical severe-hypoxia one —
and in particular no warning SpO₂ finding: filtering the findings by the
SpO₂ short labels leaves exactly the critical singleton. -/
theorem claim_C3_spo2_exclusive (row : PatientRow)
    (h : row.spo2_percent.getD 0 < 85) :
    (auditFindingsRow row).filter isSpO2Finding
      = [⟨2, "Critical: Severe Hypoxia (SpO₂ < 85%)", "Critically Low SpO₂"⟩] :=
  auditFindings_spo2_critical h

/-- C3 witness: the theorem applied to the concrete hypoxia row (SpO₂ 70). -/
theorem claim_C3_witness :
    (auditFindingsRow rowHypoxia).filter isSpO2Finding
      = [⟨2, "Critical: Severe Hypoxia (SpO₂ < 85%)", "Critically Low SpO₂"⟩] :=
  claim_C3_spo2_exclusive rowHypoxia (by decide)

/-- C4: for every row the scorer output has at most 3 entries; the sorted
scored list is in non-increasing score order; for every score value the
entries carrying it appear in exactly the knowledge-base order they had in
`scoredRules` (stability of the tie-break); and every returned insight
arises from a scored rule with total score strictly greater than 0. -/
theorem claim_C4_scorer_shape (row : PatientRow) :
    (get_clinical_insights row).length ≤ 3
    ∧ (sortedInsights row).Pairwise (fun a b => b.score ≤ a.score)
    ∧ (∀ s : Nat, (sortedInsights row).filter (fun e => e.score == s)
        = (scoredRules row).filter (fun e => e.score == s))
    ∧ (∀ i ∈ get_clinical_insights row,
        ∃ e ∈ scoredRules row, e.insight = i ∧ 0 < e.score) := by
  have hseq : sortedInsights row = sortByKeyDesc (fun e => e.score) (scoredRules row) := rfl
  refine ⟨?_, ?_, ?_, ?_⟩
  · unfold get_clinical_insights
    rw [List.length_map, List.length_take]
    exact min_le_left 3 _
  · exact pairwise_sortByKeyDesc (fun e => e.score) (scoredRules row)
  · intro s
    exact @filter_key_sortByKeyDesc ScoredRule (fun e => e.score) s (scoredRules row)
  · intro i hi
    unfold get_clinical_insights at hi
    rcases List.mem_map.mp hi with ⟨e, he, rfl⟩
    have hes : e ∈ sortedInsights row := List.mem_of_mem_take he
    have hescored : e ∈ scoredRules row := by
      have h1 : e ∈ (sortedInsights row).filter (fun x => x.score == e.score) :=
        List.mem_filter.mpr ⟨hes, by simp⟩
      rw [hseq] at h1
      rw [@filter_key_sortByKeyDesc ScoredRule (fun x => x.score) e.score (scoredRules row)] at h1
      exact (List.mem_filter.mp h1).1
    exact ⟨e, hescored, rfl, scoredRules_pos hescored⟩

/-- C4 witness: the theorem applied to the concrete vitals-only row. -/
theorem claim_C4_witness :
    (get_clinical_insights rowVitalsOnly).length ≤ 3 :=
  (claim_C4_scorer_shape rowVitalsOnly).1

/-- C5: for every row and rule, the +50 root-cause bonus is granted exactly
when the lower-cased complaint contains some keyword of the fixed root-cause
vocabulary, the rule's primary keywords scored strictly positively, and at
least one of the rule's primary keywords is itself a member of the
vocabulary. -/
theorem claim_C5_root_cause_bonus (row : PatientRow) (rule : DiagnosisRule) :
    root_cause_bonus row rule = 50
      ↔ ((∃ k ∈ ROOT_CAUSE_KEYWORDS, containsSub (complaintOf row) k = true)
          ∧ 0 < primary_text_score row rule
          ∧ ∃ p ∈ rule.primary_complaints, p ∈ ROOT_CAUSE_KEYWORDS) := by
  unfold root_cause_bonus
  split
  case isTrue hc =>
    simp only [patient_has_root_cause_keyword, Bool.and_eq_true, decide_eq_true_eq,
      List.any_eq_true] at hc
    obtain ⟨⟨⟨k, hk, hck⟩, hpos⟩, ⟨p, hp, hmem⟩⟩ := hc
    constructor
    · intro _
      exact ⟨⟨k, hk, hck⟩, hpos, ⟨p, hp, by simpa using hmem⟩⟩
    · intro _
      rfl
  case isFalse hc =>
    constructor
    · intro h
      exact absurd h (by decide)
    · rintro ⟨⟨k, hk, hck⟩, hpos, ⟨p, hp, hmem⟩⟩
      exfalso
      apply hc
      simp only [patient_has_root_cause_keyword, Bool.and_eq_true, decide_eq_true_eq,
        List.any_eq_true]
      exact ⟨⟨⟨k, hk, hck⟩, hpos⟩, ⟨p, hp, by simpa using hmem⟩⟩

/-- C6 counterexample: on a row whose complaint is `"confusion"` (with
consciousness `"Alert"` and GCS 15) and the hypoglycemia rule (knowledge
base index 2, secondary signs `["sweating", "confusion"]`), the claim's
flag condition holds and the rule lists a compatible sign, yet the source
adds no +3 bonus: `is_unconscious` checks only `"unconscious"` in the
complaint, not `"confusion"`/`"no response"`. -/
theorem claim_C6_counterexample :
    ¬ (unconsciousBonus rowConfusion (kbRule 2) = 3
        ↔ (specFlaggedUnconsciousConfused rowConfusion = true
            ∧ unconsciousCompatSign (kbRule 2) = true)) := by
  decide

/-- C6 amended: the +3 unconscious/confused bonus is added iff the code's
flag holds — the lower-cased consciousness text contains `"unresponsive"`,
or `"unconscious"` occurs in the lower-cased complaint, or the 0-defaulted
GCS is ≤ 8 — and the rule's secondary-sign list contains one of
`"unconscious"`, `"confusion"`, `"no response"`. -/
theorem claim_C6_amended (row : PatientRow) (rule : DiagnosisRule) :
    unconsciousBonus row rule = 3
      ↔ ((containsSub (consciousnessOf row) "unresponsive" = true
            ∨ containsSub (complaintOf row) "unconscious" = true
            ∨ row.gcs.getD 0 ≤ 8)
          ∧ ("unconscious" ∈ rule.secondary_signs ∨ "confusion" ∈ rule.secondary_signs
              ∨ "no response" ∈ rule.secondary_signs)) := by
  unfold unconsciousBonus
  split
  case isTrue hc =>
    simp only [is_unconscious, is_low_gcs, unconsciousCompatSign, Bool.and_eq_true,
      Bool.or_eq_true, decide_eq_true_eq, List.any_eq_true] at hc
    obtain ⟨h1, h2⟩ := hc
    constructor
    · intro _
      refine ⟨?_, ?_⟩
      · rcases h1 with (h | h) | h
        · exact Or.inl h
        · exact Or.inr (Or.inl h)
        · exact Or.inr (Or.inr h)
      · obtain ⟨s, hs, hcon⟩ := h2
        have hmem : s ∈ rule.secondary_signs := by simpa using hcon
        simp only [List.mem_cons, List.not_mem_nil, or_false] at hs
        rcases hs with rfl | rfl | rfl
        · exact Or.inl hmem
        · exact Or.inr (Or.inl hmem)
        · exact Or.inr (Or.inr hmem)
    · intro _
      rfl
  case isFalse hc =>
    constructor
    · intro h
      exact absurd h (by decide)
    · rintro ⟨h1, h2⟩
      exfalso
      apply hc
      simp only [is_unconscious, is_low_gcs, unconsciousCompatSign, Bool.and_eq_true,
        Bool.or_eq_true, decide_eq_true_eq, List.any_eq_true]
      refine ⟨?_, ?_⟩
      · rcases h1 with h | h | h
        · exact Or.inl (Or.inl h)
        · exact Or.inl (Or.inr h)
        · exact Or.inr h
      · rcases h2 with h | h | h
        · exact ⟨"unconscious", by simp, by simpa using h⟩
        · exact ⟨"confusion", by simp, by simpa using h⟩
        · exact ⟨"no response", by simp, by simpa using h⟩

/-- C7: for all (lower-cased) complaints and predicted treatment labels, a
protocol name is resolved exactly when some lookup-table keyword occurring
in the complaint maps to it, or it is the treatment label itself and the
protocol library contains that name; and when the resolved set is empty the
display falls back to exactly the single default ongoing-care protocol. -/
theorem claim_C7_protocol_resolution (cc ai_treatment : String) :
    (∀ p, p ∈ resolveProtocolKeys cc ai_treatment
        ↔ ((∃ k prot, (k, prot) ∈ COMPLAINT_TO_PROTOCOL
              ∧ containsSub cc k = true ∧ p = prot)
           ∨ (p = ai_treatment ∧ PROTOCOL_KEYS.contains ai_treatment = true)))
    ∧ (resolveProtocolKeys cc ai_treatment = [] →
        displayedProtocolKeys cc ai_treatment = ["Default"]) := by
  constructor
  · intro p
    unfold resolveProtocolKeys
    rw [List.mem_append]
    constructor
    · rintro (h | h)
      · rcases List.mem_filterMap.mp h with ⟨kp, hkp, hsome⟩
        by_cases hct : containsSub cc kp.1 = true
        · rw [if_pos hct] at hsome
          injection hsome with he
          exact Or.inl ⟨kp.1, kp.2, hkp, hct, he.symm⟩
        · rw [if_neg hct] at hsome
          cases hsome
      · by_cases hc : PROTOCOL_KEYS.contains ai_treatment = true
        · rw [if_pos hc] at h
          exact Or.inr ⟨List.mem_singleton.mp h, hc⟩
        · rw [if_neg hc] at h
          cases h
    · rintro (⟨k, prot, hkp, hct, rfl⟩ | ⟨rfl, hc⟩)
      · refine Or.inl (List.mem_filterMap.mpr ⟨(k, p), hkp, ?_⟩)
        rw [if_pos hct]
      · refine Or.inr ?_
        rw [if_pos hc]
        exact List.mem_singleton.mpr rfl
  · intro hemp
    simp [displayedProtocolKeys, hemp]

/-- C7 witness: the theorem instantiated at the spec's two scenarios — the
bleeding complaint resolves the Direct Pressure protocol, and the empty
complaint with an unrecognized treatment label displays exactly the default
protocol. -/
theorem claim_C7_witness :
    "Direct Pressure" ∈ resolveProtocolKeys "severe bleeding from leg" "Oxygen Therapy"
      ∧ displayedProtocolKeys "" "Oxygen Therapy" = ["Default"] := by
  constructor
  · exact ((claim_C7_protocol_resolution "severe bleeding from leg" "Oxygen Therapy").1
      "Direct Pressure").mpr
      (Or.inl ⟨"bleeding", "Direct Pressure", by decide, by decide, rfl⟩)
  · exact (claim_C7_protocol_resolution "" "Oxygen Therapy").2 (by decide)

theorem vitals_score_eq_labels_length (row : PatientRow) (rule : DiagnosisRule) :
    vitals_score row rule = 3 * (vitalsLabels row rule).length := by
  unfold vitals_score vitalsLabels unconsciousBonus lowBpBonus highHrBonus feverBonus
  split_ifs <;> simp

/-- C8 counterexample: on the concrete empty-complaint low-BP row both
returned insights were selected purely by the vitals-only low-BP signal (no
primary or secondary complaint keyword of the sepsis rule, knowledge-base
index 12, matches the empty complaint), yet their matched-symptoms label is
`"Low BP"`, not the claimed fallback `"Based on Chief Complaint"`. -/
theorem claim_C8_counterexample :
    (get_clinical_insights rowVitalsOnly).map (fun i => i.matchedLabel) = ["Low BP", "Low BP"]
      ∧ primaryMatchList rowVitalsOnly (kbRule 12) = []
      ∧ secondaryMatchList rowVitalsOnly (kbRule 12) = []
      ∧ (get_clinical_insights rowVitalsOnly).map (fun i => i.rule.cause)
          = ["Fever - sepsis", "Anaphylactic Shock"] := by
  refine ⟨?_, ?_, ?_, ?_⟩ <;> decide

/-- C8 amended: for every row and every rule the scorer selects (total score
strictly positive), some matched symptom is always recorded — keyword
matches are appended title-cased and vitals-only signals append their fixed
labels — so the display label is the comma-join of the de-duplicated
(`Nodup`) symptom list, and the `"Based on Chief Complaint"` fallback
branch is unreachable for selected rules; every recorded symptom is either
the title-cased form of one of the rule's own keywords or one of the four
fixed vitals labels. -/
theorem claim_C8_matched_label (row : PatientRow) (rule : DiagnosisRule)
    (h : 0 < total_score row rule) :
    matchedSymptoms row rule ≠ []
      ∧ insightLabel row rule = ", ".intercalate (matchedSymptoms row rule).dedup
      ∧ ((matchedSymptoms row rule).dedup).Nodup
      ∧ ∀ s ∈ matchedSymptoms row rule,
          (∃ k, (k ∈ rule.primary_complaints ∨ k ∈ rule.secondary_signs) ∧ s = pyTitle k)
          ∨ s ∈ (["Unconscious/Confused", "Low BP", "High HR", "Fever"] : List String) := by
  have hlen_eq : (matchedSymptoms row rule).length
      = (primaryMatchList row rule).length + (secondaryMatchList row rule).length
        + (vitalsLabels row rule).length := by
    unfold matchedSymptoms
    simp [List.length_append, List.length_map]
    omega
  have hv_eq := vitals_score_eq_labels_length row rule
  have hp_def : primary_text_score row rule = 10 * (primaryMatchList row rule).length := rfl
  have hs_def : secondary_text_score row rule = 2 * (secondaryMatchList row rule).length := rfl
  have htot : total_score row rule
      = primary_text_score row rule + secondary_text_score row rule
        + vitals_score row rule + root_cause_bonus row rule := rfl
  have hr_p : 0 < root_cause_bonus row rule → 0 < primary_text_score row rule := by
    unfold root_cause_bonus
    split
    case isTrue hcnd =>
      intro _
      simp only [Bool.and_eq_true, decide_eq_true_eq] at hcnd
      exact hcnd.1.2
    case isFalse hcnd =>
      intro h0
      exact absurd h0 (by decide)
  have hlen : 0 < (matchedSymptoms row rule).length := by
    rcases Nat.eq_zero_or_pos (root_cause_bonus row rule) with hr0 | hrpos
    · omega
    · have := hr_p hrpos
      omega
  have hne : matchedSymptoms row rule ≠ [] := List.length_pos.mp hlen
  refine ⟨hne, ?_, List.nodup_dedup _, ?_⟩
  · unfold insightLabel
    cases hm : matchedSymptoms row rule with
    | nil => exact absurd hm hne
    | cons a as => simp
  · intro s hs
    unfold matchedSymptoms at hs
    rcases List.mem_append.mp hs with hps | hv
    · rcases List.mem_append.mp hps with hp | hsy
      · rcases List.mem_map.mp hp with ⟨k, hk, rfl⟩
        exact Or.inl ⟨k, Or.inl (List.mem_of_mem_filter hk), rfl⟩
      · rcases List.mem_map.mp hsy with ⟨k, hk, rfl⟩
        exact Or.inl ⟨k, Or.inr (List.mem_of_mem_filter hk), rfl⟩
    · right
      unfold vitalsLabels at hv
      simp only [List.mem_append] at hv
      rcases hv with ((h | h) | h) | h <;> (split at h <;> simp_all)

/-- C8 witness: the amended theorem applied to the concrete vitals-only row
and the sepsis rule it selects. -/
theorem claim_C8_witness :
    0 < total_score rowVitalsOnly (kbRule 12)
      ∧ matchedSymptoms rowVitalsOnly (kbRule 12) ≠ [] :=
  ⟨by decide, (claim_C8_matched_label rowVitalsOnly (kbRule 12) (by decide)).1⟩

/-- C9 counterexample: `encrypt_data` of a *present empty string* is not
null — `pd.isna("")` is false, so the empty string is encrypted like any
other text (here by the concrete round-trip-correct toy cipher, giving the
ciphertext `"T"`, which decrypts back to `""`).  This refutes the claim's
"per the interface contract, for an empty input encrypt_data returns null"
part; only null/missing inputs yield null. -/
theorem claim_C9_counterexample :
    encrypt_data (some "") toyFernet = some "T"
      ∧ (encrypt_data (some "") toyFernet).isSome = true
      ∧ decrypt_data (encrypt_data (some "") toyFernet) toyFernet = "" := by
  refine ⟨?_, ?_, ?_⟩ <;> decide

/-- C9 amended: for every cipher satisfying the Fernet round-trip contract
and every string `x` — empty included — `decrypt_data (encrypt_data x)`
returns `x`; `encrypt_data` of a null/missing input is null; and
`encrypt_data` of any present string (in particular the empty string) is a
ciphertext, never null. -/
theorem claim_C9_roundtrip (cipher : FernetCipher)
    (hround : ∀ s : String, cipher.decryptFn (cipher.encryptFn s) = some s)
    (x : String) :
    decrypt_data (encrypt_data (some x) cipher) cipher = x
      ∧ encrypt_data none cipher = none
      ∧ (encrypt_data (some x) cipher).isSome = true := by
  refine ⟨?_, rfl, rfl⟩
  show (match cipher.decryptFn (cipher.encryptFn x) with
    | some t => t
    | none => "Decryption Error") = x
  rw [hround x]

/-- C9 witness: the round-trip theorem applied to the toy cipher and a
concrete chief-complaint string. -/
theorem claim_C9_witness :
    decrypt_data (encrypt_data (some "chest pain") toyFernet) toyFernet = "chest pain" :=
  (claim_C9_roundtrip toyFernet (fun _ => rfl) "chest pain").1

/-- C10: for every row whose GCS is missing or unparseable the 0-default
makes the `gcs ≤ 8` disjunct true, so the derived consciousness state is
`Unconscious` regardless of the consciousness text; consequently any
successful `get_semantic_info` call on such a row reports
`consciousness_state = "Unconscious"`. -/
theorem claim_C10_missing_gcs_unconscious (row : PatientRow) (h : row.gcs = none) :
    (consciousnessState row).1 = "Unconscious"
      ∧ ∀ (predict : TreatmentInput → Except InferenceError String) (r : SemanticInfo),
          get_semantic_info row predict = Except.ok r →
            r.consciousness_state = "Unconscious" := by
  have hcond : (containsSub (strToLower row.consciousness) "unresponsive"
      || decide (row.gcs.getD 0 ≤ 8)) = true := by
    rw [h]
    simp
  have hcs : (consciousnessState row).1 = "Unconscious" := by
    unfold consciousnessState
    rw [if_pos hcond]
  refine ⟨hcs, ?_⟩
  intro predict r hr
  unfold get_semantic_info at hr
  cases hp : predict (modelInput row) with
  | error e =>
    rw [hp] at hr
    simp [Except.map] at hr
  | ok a =>
    rw [hp] at hr
    simp only [Except.map] at hr
    injection hr with h2
    rw [← h2]
    exact hcs

/-- C10 witness: the theorem applied to the concrete GCS-less row whose
consciousness text reads `"Alert"`. -/
theorem claim_C10_witness :
    (consciousnessState rowNoGcs).1 = "Unconscious" :=
  (claim_C10_missing_gcs_unconscious rowNoGcs rfl).1

/-- C5 witness: the bonus theorem instantiated on the concrete chest-pain
row and the MI rule (knowledge-base index 4), yielding the +50 bonus. -/
theorem claim_C5_witness :
    root_cause_bonus rowTachy (kbRule 4) = 50 :=
  (claim_C5_root_cause_bonus rowTachy (kbRule 4)).mpr
    ⟨⟨"chest pain", by decide, by decide⟩, by decide, ⟨"chest pain", by decide, by decide⟩⟩

/-- C6 witness: the amended theorem instantiated on the concrete GCS-less
row (0-defaulted GCS ≤ 8) and the hypoglycemia rule listing `"confusion"`,
yielding the +3 bonus. -/
theorem claim_C6_witness :
    unconsciousBonus rowNoGcs (kbRule 2) = 3 :=
  (claim_C6_amended rowNoGcs (kbRule 2)).mpr
    ⟨Or.inr (Or.inr (by decide)), Or.inr (Or.inl (by decide))⟩
